import Mathlib

/-!
Shallow embedding of the goera submission-judging engine.

Sources embedded here:
- src/judge/code-runner/code-runner.go : the sandbox runner
  (runHandler configuration defaulting, runJudge, compileProgram,
  runTestCaseInDocker with its verdict classification and container
  teardown), with the Docker engine effects abstracted into explicit
  outcome records so the control flow stays exactly that of the source.
- src/unnamed/part_000 : the dispatcher and worker process manager
  (submitHandler, isRunnerBusy, runnerDoneHandler, processSubmission,
  addRunnerToState, removeRunnerFromState, getNextPort, addPort).
-/

namespace Goera

/-- Verdicts, mirroring the Result constants of code-runner.go. -/
inductive Result where
  | Accepted
  | CompileError
  | WrongAnswer
  | MemoryLimit
  | TimeLimit
  | RuntimeError
deriving DecidableEq, Repr

/-- A test case: input text and expected output text. -/
structure TestCase where
  input : String
  expected : String
deriving DecidableEq, Repr

/-- Go unicode.IsSpace, as used by strings.TrimSpace: the Latin-1 cases
plus the Unicode White_Space table. -/
def goIsSpace (c : Char) : Bool :=
  c = ' ' || c = '\t' || c = '\n' || c = Char.ofNat 11 || c = Char.ofNat 12 ||
  c = '\r' || c = Char.ofNat 0x85 || c = Char.ofNat 0xA0 ||
  c = Char.ofNat 0x1680 ||
  (0x2000 ≤ c.toNat && c.toNat ≤ 0x200A) ||
  c = Char.ofNat 0x2028 || c = Char.ofNat 0x2029 || c = Char.ofNat 0x202F ||
  c = Char.ofNat 0x205F || c = Char.ofNat 0x3000

/-- Go strings.TrimSpace: drop leading and trailing white space. -/
def trimSpace (s : String) : String :=
  String.mk (((s.data.dropWhile goIsSpace).reverse.dropWhile goIsSpace).reverse)

/-- Left-to-right non-overlapping replacement of the two-character
sequence CR LF by LF, on character lists. -/
def replaceCRLF : List Char → List Char
  | '\r' :: '\n' :: rest => '\n' :: replaceCRLF rest
  | c :: rest => c :: replaceCRLF rest
  | [] => []

/-- Go strings.ReplaceAll applied with old = CR LF and new = LF. -/
def replaceAllCRLF (s : String) : String :=
  String.mk (replaceCRLF s.data)

/-- The normalization the runner applies to each side before comparing
outputs: trim leading and trailing white space, then normalize CR LF
line endings to LF. -/
def normalizeOutput (s : String) : String :=
  replaceAllCRLF (trimSpace s)

example : trimSpace "  3\n" = "3" := by decide
example : normalizeOutput "3\r\n" = "3" := by decide

/-- Judging configuration, mirroring JudgeConfig of code-runner.go.
The Go TimeLimitPerCase is a time.Duration; it is carried here as a
count of milliseconds. -/
structure JudgeConfig where
  timeLimitMs : Nat
  memoryLimitMB : Nat
  cpuCount : Rat
  dockerImageName : String
  sourceFilePath : String
  testCases : List TestCase
deriving DecidableEq, Repr

/-- The default image name constant DEFAULT_DOCKER_IMAGE. -/
def DEFAULT_DOCKER_IMAGE : String := "go-judge-runner:latest"

/-- The ways ContainerStart can fail in runTestCaseInDocker, one
constructor per branch of its error handling. -/
inductive StartFailure where
  | parentDeadline
  | startDeadline
  | containerNotFound
  | otherFailure (msg : String)
deriving DecidableEq, Repr

/-- Outcome of waiting for the output-copy goroutine after the
container exits: clean finish, a copy error, or the five-second
secondary timeout. -/
inductive CopyOutcome where
  | finished
  | copyFailed (msg : String)
  | copyTimedOut
deriving DecidableEq, Repr

/-- Outcome of the select over ContainerWait in runTestCaseInDocker:
the container left the running state with a status code, the wait
context hit the per-case time limit, or waiting failed for another
reason. -/
inductive WaitOutcome where
  | exited (statusCode : Int) (copy : CopyOutcome)
  | waitDeadline
  | waitFailed (msg : String)
deriving DecidableEq, Repr

/-- The behaviour of the Docker engine during one test case: whether
create and attach succeed, how start behaves, how the wait resolves,
and the bytes the container produced on stdout and stderr. -/
structure DockerEnv where
  createOk : Bool
  attachOk : Bool
  startFailure : Option StartFailure
  wait : WaitOutcome
  stdout : String
  stderr : String
deriving DecidableEq, Repr

/-- Container lifecycle events performed against the Docker engine. -/
inductive ContainerAction where
  | create
  | attach
  | start
  | stop
  | removeForce
deriving DecidableEq, Repr

/-- Result of one test-case run: the verdict, the captured output, the
diagnostic message, and the trace of container lifecycle actions that
were performed (the deferred stop plus forced remove appears at the
end of the trace on every path it runs on, matching Go defer). -/
structure TCOutcome where
  result : Result
  output : String
  errMsg : String
  actions : List ContainerAction
deriving DecidableEq, Repr

/-- The stderr suffix the classifier appends to a diagnostic when the
trimmed stderr is non-empty. -/
def stderrSuffix (s : String) : String :=
  if s = "" then "" else "\nStderr:\n" ++ s

/-- runTestCaseInDocker of code-runner.go with the Docker engine
abstracted into a DockerEnv. Control flow follows the source: create
(failure returns RuntimeError with no teardown, since no container
exists yet), then a deferred stop-and-force-remove that runs on every
later return, attach, start (with its four error branches), and the
select on the wait channels; on exit the status code is classified
exactly as in the source, including the output comparison for a clean
exit. The formatting of the Go duration value inside the time-limit
diagnostic is abstracted to the millisecond count. -/
def runTestCaseInDocker (tc : TestCase) (config : JudgeConfig)
    (env : DockerEnv) : TCOutcome :=
  if env.createOk = false then
    { result := .RuntimeError, output := "",
      errMsg := "Failed to create container", actions := [] }
  else if env.attachOk = false then
    { result := .RuntimeError, output := "",
      errMsg := "Failed to attach to container",
      actions := [.create, .stop, .removeForce] }
  else
    match env.startFailure with
    | some .parentDeadline =>
      { result := .TimeLimit, output := "",
        errMsg := "Time limit exceeded before container could start",
        actions := [.create, .attach, .stop, .removeForce] }
    | some .startDeadline =>
      { result := .RuntimeError, output := "",
        errMsg := "Timed out starting container",
        actions := [.create, .attach, .stop, .removeForce] }
    | some .containerNotFound =>
      { result := .RuntimeError, output := "",
        errMsg := "Failed to start container: container not found",
        actions := [.create, .attach, .stop, .removeForce] }
    | some (.otherFailure m) =>
      { result := .RuntimeError, output := "",
        errMsg := "Failed to start container: " ++ m,
        actions := [.create, .attach, .stop, .removeForce] }
    | none =>
      match env.wait with
      | .waitDeadline =>
        let out := trimSpace env.stdout
        let errS := trimSpace env.stderr
        { result := .TimeLimit, output := out,
          errMsg := "Time Limit Exceeded (> " ++ toString config.timeLimitMs
            ++ "ms)"
            ++ (if errS = "" then "" else "\nPartial Stderr:\n" ++ errS),
          actions := [.create, .attach, .start, .stop, .removeForce] }
      | .waitFailed m =>
        { result := .RuntimeError, output := trimSpace env.stdout,
          errMsg := "Error waiting for container: " ++ m,
          actions := [.create, .attach, .start, .stop, .removeForce] }
      | .exited code copy =>
        let copyWarn :=
          match copy with
          | .finished => ""
          | .copyFailed m => "\nWarning: Error reading container output: " ++ m
          | .copyTimedOut => "\nWarning: Timed out reading full container output."
        let actualOutput := trimSpace env.stdout
        let stderrOutput := trimSpace env.stderr
        if code ≠ 0 then
          if code = 137 ∧ config.memoryLimitMB > 0 then
            { result := .MemoryLimit, output := actualOutput,
              errMsg := "Memory Limit Exceeded (" ++ toString config.memoryLimitMB
                ++ " MB, exit code " ++ toString code ++ ")"
                ++ stderrSuffix stderrOutput,
              actions := [.create, .attach, .start, .stop, .removeForce] }
          else if code = 139 then
            { result := .RuntimeError, output := actualOutput,
              errMsg := "Runtime Error: Segmentation Fault (exit code "
                ++ toString code ++ ")" ++ stderrSuffix stderrOutput,
              actions := [.create, .attach, .start, .stop, .removeForce] }
          else
            { result := .RuntimeError, output := actualOutput,
              errMsg := "Runtime Error: Container exited with non-zero status code "
                ++ toString code ++ "." ++ stderrSuffix stderrOutput,
              actions := [.create, .attach, .start, .stop, .removeForce] }
        else
          let expectedOutputTrimmed := trimSpace tc.expected
          let actualOutputNormalized := replaceAllCRLF actualOutput
          let expectedOutputNormalized := replaceAllCRLF expectedOutputTrimmed
          if actualOutputNormalized ≠ expectedOutputNormalized then
            { result := .WrongAnswer, output := actualOutput,
              errMsg := "Output does not match expected output.",
              actions := [.create, .attach, .start, .stop, .removeForce] }
          else
            { result := .Accepted, output := actualOutput,
              errMsg := copyWarn,
              actions := [.create, .attach, .start, .stop, .removeForce] }

/-- The behaviour of the host Go toolchain during compileProgram: the
path the executable would be written to, the combined stdout and
stderr of the compiler, whether the thirty-second compile context
expired, the error from cmd.Run if any, and whether the output
artifact exists afterwards. -/
structure CompileEnv where
  executablePath : String
  compileOutput : String
  timedOut : Bool
  runError : Option String
  executableExists : Bool
deriving DecidableEq, Repr

/-- compileProgram of code-runner.go: returns the executable path, the
captured compiler log, and an error. The error is non-none on compile
timeout, on any cmd.Run failure (non-zero compiler exit), and when the
run reported success but the executable is missing; the compiler log
is returned in every case. -/
def compileProgram (env : CompileEnv) : String × String × Option String :=
  if env.timedOut then
    ("", env.compileOutput, some "compilation timed out")
  else
    match env.runError with
    | some e =>
      ("", env.compileOutput, some ("compilation command failed: " ++ e))
    | none =>
      if env.executableExists = false then
        ("", env.compileOutput,
          some "compilation command succeeded but executable not found")
      else
        (env.executablePath, env.compileOutput, none)

/-- The behaviour of the environment during one runJudge call: whether
the Docker client could be created, the image build error if any, the
compiler behaviour, whether filepath.Abs succeeds, and the Docker
engine behaviour for each test case index. -/
structure JudgeEnv where
  clientOk : Bool
  buildError : Option String
  compileEnv : CompileEnv
  absOk : Bool
  caseEnv : Nat → DockerEnv

/-- What one runJudge call produces: the overall verdict, the captured
log entries, the hard error (non-nil Go error) if any, and how many
test cases were executed. -/
structure JudgeOutcome where
  result : Result
  log : List String
  err : Option String
  casesExecuted : Nat

/-- The test-case loop of runJudge: run each case in order through
runTestCaseInDocker, stopping at the first result that is not
Accepted; returns the overall result and the number of cases
executed. The second argument is the index of the first case, used to
select the Docker environment of each case. -/
def runTestCases (config : JudgeConfig) (caseEnv : Nat → DockerEnv) :
    List TestCase → Nat → Result × Nat
  | [], _ => (.Accepted, 0)
  | tc :: rest, i =>
    let out := runTestCaseInDocker tc config (caseEnv i)
    if out.result = .Accepted then
      let r := runTestCases config caseEnv rest (i + 1)
      (r.1, r.2 + 1)
    else
      (out.result, 1)

/-- runJudge of code-runner.go. A failed Docker client creation and a
failed filepath.Abs return a hard error together with RuntimeError; a
failed image build and a failed compilation are handled failures that
return CompileError with a nil error; otherwise the test cases run
through the fail-fast loop. Progress log lines that carry content are
modelled; purely decorative progress lines are omitted. -/
def runJudge (config : JudgeConfig) (env : JudgeEnv) : JudgeOutcome :=
  let log0 := ["Initialized judge configuration",
    "Loaded " ++ toString config.testCases.length ++ " test cases."]
  if env.clientOk then
    match env.buildError with
    | some e =>
      { result := .CompileError,
        log := log0 ++ ["Docker Image Build Failed: " ++ e,
          "Result: CompileError"],
        err := none, casesExecuted := 0 }
    | none =>
      let cp := compileProgram env.compileEnv
      let log1 := log0 ++
        (if cp.2.1 = "" then [] else
          ["--- Compilation Log ---\n" ++ cp.2.1 ++ "\n--- End Compilation Log ---"])
      match cp.2.2 with
      | some ce =>
        { result := .CompileError,
          log := log1 ++ ["Go Compilation Failed: " ++ ce,
            "Result: CompileError"],
          err := none, casesExecuted := 0 }
      | none =>
        if env.absOk then
          let r := runTestCases config env.caseEnv config.testCases 0
          { result := r.1, log := log1, err := none, casesExecuted := r.2 }
        else
          { result := .RuntimeError,
            log := log1 ++ ["FATAL: Error getting absolute path for executable"],
            err := some "error getting absolute path for executable",
            casesExecuted := 0 }
  else
    { result := .RuntimeError,
      log := log0 ++ ["FATAL: Failed to create Docker client"],
      err := some "failed to create Docker client", casesExecuted := 0 }

/-- The per-case verdict list of a judging run: for each test case, the
verdict runTestCaseInDocker produces for it under the environment of
its index. runTestCases walks exactly this list. -/
def caseResultsAux (config : JudgeConfig) (caseEnv : Nat → DockerEnv) :
    List TestCase → Nat → List Result
  | [], _ => []
  | tc :: rest, i =>
    (runTestCaseInDocker tc config (caseEnv i)).result ::
      caseResultsAux config caseEnv rest (i + 1)

/-- The verdicts of all test cases of a run, in order. -/
def caseResults (config : JudgeConfig) (env : JudgeEnv) : List Result :=
  caseResultsAux config env.caseEnv config.testCases 0

/-- The fail-fast fold over a list of per-case verdicts: first
non-Accepted verdict (with how many cases were consumed), or Accepted
after the whole list. -/
def judgeLoop : List Result → Result × Nat
  | [] => (.Accepted, 0)
  | r :: rest =>
    if r = .Accepted then
      let v := judgeLoop rest
      (v.1, v.2 + 1)
    else
      (r, 1)

/-- The incoming /run request body, mirroring SubmissionRequest of
code-runner.go: resource parameters arrive as strings, empty when
omitted. -/
structure SubmissionRequest where
  questionID : Nat
  sourceCode : String
  testCases : List TestCase
  timeLimit : String
  memoryLimit : String
  cpuCount : String
  dockerImage : String
deriving DecidableEq, Repr

/-- The configuration-derivation part of runHandler in code-runner.go:
parse timeLimit (empty means two seconds), memoryLimit (empty means
64 MB), cpuCount (empty means one core), and dockerImage (empty means
DEFAULT_DOCKER_IMAGE), rejecting malformed non-empty values. The Go
parsers time.ParseDuration (result in milliseconds) and fmt.Sscanf
are passed in as functions returning none on parse failure;
tmpSrcName is the name of the temporary source file runHandler
created. -/
def runHandlerConfig (parseDuration : String → Option Nat)
    (scanUint : String → Option Nat) (scanFloat : String → Option Rat)
    (tmpSrcName : String) (req : SubmissionRequest) :
    Except String JudgeConfig :=
  let tl := parseDuration req.timeLimit
  if tl.isNone ∧ req.timeLimit ≠ "" then
    .error "Invalid timeLimit format"
  else
    let timeLimitMs := if req.timeLimit = "" then 2000 else tl.getD 0
    let memStep : Except String Nat :=
      if req.memoryLimit ≠ "" then
        match scanUint req.memoryLimit with
        | none => .error "Invalid memoryLimit format"
        | some m => .ok m
      else
        .ok 64
    match memStep with
    | .error e => .error e
    | .ok memoryLimitMB =>
      let cpuStep : Except String Rat :=
        if req.cpuCount ≠ "" then
          match scanFloat req.cpuCount with
          | none => .error "Invalid cpuCount format"
          | some c => .ok c
        else
          .ok 1
      match cpuStep with
      | .error e => .error e
      | .ok cpuCount =>
        let dockerImage :=
          if req.dockerImage = "" then DEFAULT_DOCKER_IMAGE
          else req.dockerImage
        .ok { timeLimitMs := timeLimitMs, memoryLimitMB := memoryLimitMB,
              cpuCount := cpuCount, dockerImageName := dockerImage,
              sourceFilePath := tmpSrcName, testCases := req.testCases }

/-!
Dispatcher and worker process manager, from src/unnamed/part_000.
-/

/-- A pending submission held by the dispatcher queue, mirroring
PendingSubmission. -/
structure PendingSubmission where
  submissionID : Nat
  sourceCode : String
  testCases : List TestCase
  timeLimit : String
  memoryLimit : String
  cpuCount : String
  dockerImage : String
deriving DecidableEq, Repr

/-- A registry record for one worker process, mirroring RunnerProcess
of part_000 (the startTime field is not modelled: no claim mentions
it). -/
structure RunnerProcess where
  port : Nat
  pid : Nat
  state : String
deriving DecidableEq, Repr

/-- The default worker port constant DefaultPort. -/
def DefaultPort : Nat := 8081

/-- isRunnerBusy of part_000. The source returns the constant
(false, nil) for every port. -/
def isRunnerBusy (_port : Nat) : Bool := false

/-- The worker-selection scan of submitHandler: walk the registry,
skip records whose state is not running, and pick the first worker
the busy check reports as free. -/
def submitScan : List RunnerProcess → Option Nat
  | [] => none
  | r :: rest =>
    if r.state ≠ "running" then
      submitScan rest
    else if isRunnerBusy r.port = false then
      some r.port
    else
      submitScan rest

/-- submitHandler of part_000, after decoding: dispatch the submission
to the first free running worker if the scan finds one (the queue is
unchanged and the chosen port is returned), otherwise append the
submission to the FIFO queue. -/
def submitHandler (runners : List RunnerProcess)
    (queue : List PendingSubmission) (sub : PendingSubmission) :
    List PendingSubmission × Option Nat :=
  match submitScan runners with
  | some port => (queue, some port)
  | none => (queue ++ [sub], none)

/-- runnerDoneHandler of part_000: when a worker on the given port
finishes, pop the queue head and dispatch it to that port; with an
empty queue the worker goes idle (no dispatch). Returns the new queue
and the dispatch performed, if any. -/
def runnerDoneHandler (queue : List PendingSubmission) (port : Nat) :
    List PendingSubmission × Option (PendingSubmission × Nat) :=
  match queue with
  | [] => ([], none)
  | next :: rest => (rest, some (next, port))

/-- Iterating worker-done events n times from a given queue, collecting
the submissions dispatched, in order. -/
def drainDispatched (port : Nat) : List PendingSubmission → Nat →
    List PendingSubmission
  | _, 0 => []
  | queue, Nat.succ n =>
    match runnerDoneHandler queue port with
    | (q2, some d) => d.1 :: drainDispatched port q2 n
    | (q2, none) => drainDispatched port q2 n

/-- Outcome of sendToCodeRunner as seen by processSubmission. -/
inductive SendOutcome where
  | sendFailed (msg : String)
  | sent (status : Result) (output : String)
deriving DecidableEq, Repr

/-- The behaviour of the environment during one processSubmission
call: the worker call outcome, then whether marshalling the result,
building the report request, performing the POST to the result sink,
and its HTTP status each succeed. -/
structure ReportEnv where
  send : SendOutcome
  marshalOk : Bool
  newRequestOk : Bool
  postOk : Bool
  statusOk : Bool
deriving DecidableEq, Repr

/-- What one processSubmission call did: how many times it invoked
runnerDoneHandler for its port, and whether the verdict reached the
result sink with a 200 status. -/
structure ProcessOutcome where
  runnerDoneCalls : Nat
  reported : Bool
deriving DecidableEq, Repr

/-- processSubmission of part_000: send the submission to the worker,
report the verdict to the result sink, and invoke runnerDoneHandler
for the port on every return path — after a send failure, after each
reporting failure, after a non-OK sink status, and after success. -/
def processSubmission (env : ReportEnv) : ProcessOutcome :=
  match env.send with
  | .sendFailed _ => { runnerDoneCalls := 1, reported := false }
  | .sent _ _ =>
    if env.marshalOk = false then
      { runnerDoneCalls := 1, reported := false }
    else if env.newRequestOk = false then
      { runnerDoneCalls := 1, reported := false }
    else if env.postOk = false then
      { runnerDoneCalls := 1, reported := false }
    else if env.statusOk = false then
      { runnerDoneCalls := 1, reported := false }
    else
      { runnerDoneCalls := 1, reported := true }

/-- addRunnerToState of part_000: update the first record with the
given port to the given pid and state running, or append a fresh
running record when no record has the port. -/
def addRunnerToState : List RunnerProcess → Nat → Nat → List RunnerProcess
  | [], port, pid => [{ port := port, pid := pid, state := "running" }]
  | r :: rest, port, pid =>
    if r.port = port then
      { r with pid := pid, state := "running" } :: rest
    else
      r :: addRunnerToState rest port pid

/-- removeRunnerFromState of part_000: drop every record with the
given port from the registry. -/
def removeRunnerFromState (runners : List RunnerProcess) (port : Nat) :
    List RunnerProcess :=
  runners.filter (fun r => r.port ≠ port)

/-- addPort of part_000: record a port in the port configuration
unless already present. -/
def addPort (ports : List Nat) (port : Nat) : List Nat :=
  if port ∈ ports then ports else ports ++ [port]

/-- getNextPort of part_000: with an empty configuration, one above
the default port; otherwise one above the highest port, where the
fold that finds the highest starts from the default port. -/
def getNextPort (ports : List Nat) : Nat :=
  if ports = [] then DefaultPort + 1
  else (ports.foldl max DefaultPort) + 1

/-- startCodeRunner of part_000, state effects: record the spawned
process as running in the registry and record its port in the port
configuration. -/
def startCodeRunner (runners : List RunnerProcess) (ports : List Nat)
    (port pid : Nat) : List RunnerProcess × List Nat :=
  (addRunnerToState runners port pid, addPort ports port)

/-- The background reaper goroutine of startCodeRunner: when the
worker process exits, the registry record for its port is removed
(the port stays in the port configuration as history). -/
def onRunnerExit (runners : List RunnerProcess) (port : Nat) :
    List RunnerProcess :=
  removeRunnerFromState runners port

/-! Helper lemmas. -/

theorem le_foldl_max : ∀ (l : List Nat) (a : Nat), a ≤ l.foldl max a := by
  intro l
  induction l with
  | nil => intro a; exact le_refl a
  | cons b rest ih =>
    intro a
    exact le_trans (le_max_left a b) (ih (max a b))

theorem mem_le_foldl_max : ∀ (l : List Nat) (a x : Nat), x ∈ l → x ≤ l.foldl max a := by
  intro l
  induction l with
  | nil => intro a x hx; cases hx
  | cons b rest ih =>
    intro a x hx
    rcases List.mem_cons.mp hx with h | h
    · subst h
      exact le_trans (le_max_right a x) (le_foldl_max rest (max a x))
    · exact ih (max a b) x h

theorem foldl_max_lt : ∀ (l : List Nat) (a q : Nat), a < q → (∀ p ∈ l, p < q) →
    l.foldl max a < q := by
  intro l
  induction l with
  | nil => intro a q ha _; exact ha
  | cons b rest ih =>
    intro a q ha h
    exact ih (max a b) q (max_lt ha (h b (List.mem_cons_self b rest)))
      (fun p hp => h p (List.mem_cons_of_mem b hp))

theorem addRunnerToState_mem : ∀ (runners : List RunnerProcess) (port pid : Nat),
    ∃ r ∈ addRunnerToState runners port pid,
      r.port = port ∧ r.pid = pid ∧ r.state = "running" := by
  intro runners
  induction runners with
  | nil =>
    intro port pid
    exact ⟨⟨port, pid, "running"⟩, List.mem_singleton_self _, rfl, rfl, rfl⟩
  | cons r rest ih =>
    intro port pid
    by_cases h : r.port = port
    · refine ⟨{ r with pid := pid, state := "running" }, ?_, h, rfl, rfl⟩
      simp [addRunnerToState, h]
    · obtain ⟨s, hs, hprop⟩ := ih port pid
      refine ⟨s, ?_, hprop⟩
      simp [addRunnerToState, h]
      exact Or.inr hs

theorem drainDispatched_eq_take : ∀ (n : Nat) (queue : List PendingSubmission)
    (port : Nat), drainDispatched port queue n = queue.take n := by
  intro n
  induction n with
  | zero => intro queue port; cases queue <;> rfl
  | succ n ih =>
    intro queue port
    cases queue with
    | nil => simp [drainDispatched, runnerDoneHandler, ih]
    | cons a q => simp [drainDispatched, runnerDoneHandler, ih]

/-! Claims about the dispatcher and the worker process manager. -/

/-- Claim C6, code evaluation: the busy determination of the
dispatcher, isRunnerBusy, is the constant false for every port, and
therefore the scan of submitHandler selects a running worker
unconditionally — also while a previously dispatched submission to
that worker has not completed, which the function cannot even
observe. -/
theorem C6_busy_check_constant_false :
    (∀ port, isRunnerBusy port = false) ∧
    submitScan [{ port := 8081, pid := 42, state := "running" }] = some 8081 := by
  exact ⟨fun _ => rfl, by decide⟩

/-- Claim C7: when a worker on a port finishes, runnerDoneHandler pops
the queue head and dispatches it to that same port, leaves the worker
idle on an empty queue, and iterating done events dispatches queued
submissions in FIFO submission order. -/
theorem C7_fifo_dispatch (port : Nat) (s : PendingSubmission)
    (rest queue : List PendingSubmission) (n : Nat) :
    runnerDoneHandler [] port = ([], none) ∧
    runnerDoneHandler (s :: rest) port = (rest, some (s, port)) ∧
    drainDispatched port queue n = queue.take n :=
  ⟨rfl, rfl, drainDispatched_eq_take n queue port⟩

/-- Claim C8: processSubmission invokes the worker-done transition
exactly once on every path — send failure, each reporting failure,
non-OK sink status, and success — and the verdict reaches the result
sink exactly when every reporting step succeeds. -/
theorem C8_worker_always_freed (env : ReportEnv) :
    (processSubmission env).runnerDoneCalls = 1 ∧
    ((processSubmission env).reported = true ↔
      ((∃ st out, env.send = .sent st out) ∧ env.marshalOk = true ∧
        env.newRequestOk = true ∧ env.postOk = true ∧ env.statusOk = true)) := by
  rcases env with ⟨send, m, nr, po, so⟩
  cases send <;> cases m <;> cases nr <;> cases po <;> cases so <;>
    simp [processSubmission]

/-- Claim C9 counterexample, refuting both clauses the amendment
changes. First, after the reaper handles a worker exit the registry
record for that port is removed entirely; no record with state
stopped remains, contradicting the claimed update to state stopped.
Second, with registered ports [8000] the auto-assigned port is 8082
and not 8001, so it is not the lowest free port above the highest
currently registered port (the scan is floored at the default port
8081). -/
theorem C9_counterexample :
    (onRunnerExit (addRunnerToState [] 8082 123) 8082 = [] ∧
      ¬ ∃ r ∈ onRunnerExit (addRunnerToState [] 8082 123) 8082,
          r.port = 8082 ∧ r.state = "stopped") ∧
    (getNextPort [8000] = 8082 ∧ getNextPort [8000] ≠ 8000 + 1) := by
  refine ⟨⟨by decide, by decide⟩, by decide, by decide⟩

/-- Claim C9 as amended: spawning a worker records port, pid and state
running in the registry (auto-assigning, when no port is given, one
more than the larger of the default port and the highest currently
registered port, which is the lowest free port above both), and when
the worker process exits the manager removes that worker from the
registry. -/
theorem C9_spawn_and_exit (runners : List RunnerProcess) (ports : List Nat)
    (port pid : Nat) :
    (∃ r ∈ (startCodeRunner runners ports port pid).1,
        r.port = port ∧ r.pid = pid ∧ r.state = "running") ∧
    (∀ r ∈ onRunnerExit runners port, r.port ≠ port) ∧
    (∀ p ∈ ports, p < getNextPort ports) ∧
    DefaultPort < getNextPort ports ∧
    (∀ q, DefaultPort < q → (∀ p ∈ ports, p < q) → getNextPort ports ≤ q) := by
  refine ⟨addRunnerToState_mem runners port pid, ?_, ?_, ?_, ?_⟩
  · intro r hr
    have := List.mem_filter.mp hr
    simpa using this.2
  · intro p hp
    have hne : ports ≠ [] := by
      intro h; rw [h] at hp; cases hp
    simp only [getNextPort, if_neg hne]
    exact Nat.lt_succ_of_le (mem_le_foldl_max ports DefaultPort p hp)
  · by_cases hne : ports = []
    · simp [getNextPort, hne]
    · simp only [getNextPort, if_neg hne]
      exact Nat.lt_succ_of_le (le_foldl_max ports DefaultPort)
  · intro q hq hall
    by_cases hne : ports = []
    · simp only [getNextPort, if_pos hne]
      omega
    · simp only [getNextPort, if_neg hne]
      exact foldl_max_lt ports DefaultPort q hq hall

/-- Witness for C9: applying the amended claim at a concrete spawn
(empty registry, port configuration holding the default port, worker
on port 8082 with pid 123). -/
theorem C9_spawn_and_exit_witness :
    (∃ r ∈ (startCodeRunner [] [8081] 8082 123).1,
        r.port = 8082 ∧ r.pid = 123 ∧ r.state = "running") ∧
    getNextPort [8081] ≤ 8082 := by
  refine ⟨(C9_spawn_and_exit [] [8081] 8082 123).1, ?_⟩
  refine (C9_spawn_and_exit [] [8081] 8082 123).2.2.2.2 8082 (by decide) ?_
  intro p hp
  rcases List.mem_singleton.mp hp with rfl
  omega

/-! Claims about the sandbox runner. -/

theorem exit_zero_result (config : JudgeConfig) (serr : String)
    (copy : CopyOutcome) (tc : TestCase) (so : String) :
    (runTestCaseInDocker tc config
        ⟨true, true, none, .exited 0 copy, so, serr⟩).result =
      if normalizeOutput so = normalizeOutput tc.expected then Result.Accepted
      else Result.WrongAnswer := by
  by_cases h : replaceAllCRLF (trimSpace so) = replaceAllCRLF (trimSpace tc.expected)
  · simp [runTestCaseInDocker, normalizeOutput, h]
  · simp [runTestCaseInDocker, normalizeOutput, h]

/-- Claim C3: for a clean exit the comparison trims both sides and
normalizes CR LF to LF before testing equality, so for expected
output 3 the actual outputs 3, 3-LF and 3-CR-LF all compare equal and
never produce WrongAnswer. -/
theorem C3_output_comparison (config : JudgeConfig) (tc : TestCase)
    (sout serr : String) (copy : CopyOutcome) :
    ((runTestCaseInDocker tc config
        ⟨true, true, none, .exited 0 copy, sout, serr⟩).result = .Accepted ↔
      normalizeOutput sout = normalizeOutput tc.expected) ∧
    ((runTestCaseInDocker tc config
        ⟨true, true, none, .exited 0 copy, sout, serr⟩).result = .WrongAnswer ↔
      ¬ normalizeOutput sout = normalizeOutput tc.expected) ∧
    (runTestCaseInDocker ⟨"1 2", "3"⟩ config
        ⟨true, true, none, .exited 0 copy, "3", serr⟩).result = .Accepted ∧
    (runTestCaseInDocker ⟨"1 2", "3"⟩ config
        ⟨true, true, none, .exited 0 copy, "3\n", serr⟩).result = .Accepted ∧
    (runTestCaseInDocker ⟨"1 2", "3"⟩ config
        ⟨true, true, none, .exited 0 copy, "3\r\n", serr⟩).result = .Accepted := by
  refine ⟨?_, ?_, ?_, ?_, ?_⟩
  · rw [exit_zero_result]
    by_cases h : normalizeOutput sout = normalizeOutput tc.expected <;> simp [h]
  · rw [exit_zero_result]
    by_cases h : normalizeOutput sout = normalizeOutput tc.expected <;> simp [h]
  · rw [exit_zero_result]; decide
  · rw [exit_zero_result]; decide
  · rw [exit_zero_result]; decide

/-- Claim C5: once the container is successfully created, the deferred
teardown (stop, then forced remove) runs on every exit path of the
test case — attach failure, every start failure, timeout, wait
failure, and every classified exit — so the action trace always ends
with stop and forced remove. -/
theorem C5_teardown_on_every_path (tc : TestCase) (config : JudgeConfig)
    (env : DockerEnv) (hc : env.createOk = true) :
    ∃ mid, (runTestCaseInDocker tc config env).actions =
      ContainerAction.create ::
        (mid ++ [ContainerAction.stop, ContainerAction.removeForce]) := by
  rcases env with ⟨co, ao, sf, w, sout, serr⟩
  cases co
  · simp at hc
  · cases ao
    · exact ⟨[], by simp [runTestCaseInDocker]⟩
    · cases sf with
      | some f =>
        cases f <;> exact ⟨[.attach], by simp [runTestCaseInDocker]⟩
      | none =>
        cases w with
        | waitDeadline => exact ⟨[.attach, .start], by simp [runTestCaseInDocker]⟩
        | waitFailed m => exact ⟨[.attach, .start], by simp [runTestCaseInDocker]⟩
        | exited code copy =>
          refine ⟨[.attach, .start], ?_⟩
          simp only [runTestCaseInDocker]
          split_ifs <;> simp_all

/-- Witness for C5 at a concrete clean run. -/
theorem C5_teardown_witness :
    ∃ mid, (runTestCaseInDocker ⟨"1 2", "3"⟩
        ⟨2000, 64, 1, DEFAULT_DOCKER_IMAGE, "/tmp/s.go", []⟩
        ⟨true, true, none, .exited 0 .finished, "3", ""⟩).actions =
      ContainerAction.create ::
        (mid ++ [ContainerAction.stop, ContainerAction.removeForce]) :=
  C5_teardown_on_every_path ⟨"1 2", "3"⟩
    ⟨2000, 64, 1, DEFAULT_DOCKER_IMAGE, "/tmp/s.go", []⟩
    ⟨true, true, none, .exited 0 .finished, "3", ""⟩ rfl

/-- Claim C10: for every /run request that runHandler accepts, each
omitted (empty) resource parameter is replaced by its default before
judging — two seconds, 64 MB, one core, the default image — each
independently of whether the other parameters were supplied; and a
request with no memory limit runs with the 64 MB ceiling configured,
so an exit code 137 under that configuration is classified as
MemoryLimit rather than RuntimeError. -/
theorem C10_request_defaults (pd su : String → Option Nat)
    (sf : String → Option Rat) (tmp : String) (req : SubmissionRequest)
    (cfg : JudgeConfig) (h : runHandlerConfig pd su sf tmp req = .ok cfg)
    (tc : TestCase) (sout serr : String) (copy : CopyOutcome) :
    (req.timeLimit = "" → cfg.timeLimitMs = 2000) ∧
    (req.memoryLimit = "" → cfg.memoryLimitMB = 64) ∧
    (req.cpuCount = "" → cfg.cpuCount = 1) ∧
    (req.dockerImage = "" → cfg.dockerImageName = DEFAULT_DOCKER_IMAGE) ∧
    (req.memoryLimit = "" →
      (runTestCaseInDocker tc cfg
        ⟨true, true, none, .exited 137 copy, sout, serr⟩).result =
      .MemoryLimit) := by
  simp only [runHandlerConfig] at h
  split at h
  · simp at h
  · split at h
    · simp at h
    · split at h
      · simp at h
      · rename_i memStep memoryLimitMB hmem cpuStep cpuCount hcpu
        simp only [Except.ok.injEq] at h
        have hmem64 : req.memoryLimit = "" → memoryLimitMB = 64 := by
          intro he
          simp [he] at hmem
          omega
        have hcpu1 : req.cpuCount = "" → cpuCount = 1 := by
          intro he
          simp [he] at hcpu
          exact hcpu.symm
        refine ⟨?_, ?_, ?_, ?_, ?_⟩
        · intro he
          rw [← h]
          simp [he]
        · intro he
          rw [← h]
          simpa using hmem64 he
        · intro he
          rw [← h]
          simpa using hcpu1 he
        · intro he
          rw [← h]
          simp [he]
        · intro he
          have hm : cfg.memoryLimitMB = 64 := by
            rw [← h]
            simpa using hmem64 he
          simp [runTestCaseInDocker, hm]

/-- Witness for C10 at a mixed request: timeLimit, cpuCount and
dockerImage supplied, memoryLimit omitted; the derived configuration
keeps the supplied values, the memory ceiling defaults to 64 MB, and
exit code 137 classifies as MemoryLimit. -/
theorem C10_request_defaults_witness :
    ((⟨5000, 64, 2, "custom:latest", "/tmp/src.go", []⟩ : JudgeConfig).memoryLimitMB
      = 64) ∧
    (runTestCaseInDocker ⟨"1 2", "3"⟩
        ⟨5000, 64, 2, "custom:latest", "/tmp/src.go", []⟩
        ⟨true, true, none, .exited 137 .finished, "", ""⟩).result =
      .MemoryLimit := by
  have h := C10_request_defaults
    (fun s => if s = "5s" then some 5000 else none)
    (fun s => if s = "64" then some 64 else none)
    (fun s => if s = "2" then some 2 else none)
    "/tmp/src.go"
    { questionID := 7, sourceCode := "package main", testCases := [],
      timeLimit := "5s", memoryLimit := "", cpuCount := "2",
      dockerImage := "custom:latest" }
    ⟨5000, 64, 2, "custom:latest", "/tmp/src.go", []⟩
    rfl ⟨"1 2", "3"⟩ "" "" .finished
  exact ⟨h.2.1 rfl, h.2.2.2.2 rfl⟩

/-- Claim C1: classification of a test case whose sandbox ran. Exit
code 137 is MemoryLimit exactly when a memory ceiling is configured
and RuntimeError otherwise; 139 is RuntimeError with a
segmentation-fault diagnostic; any other nonzero code is RuntimeError
with the captured stderr in the diagnostic; code 0 compares the
normalized outputs; and a timed-out wait is TimeLimit. -/
theorem C1_verdict_classification (config : JudgeConfig) (tc : TestCase)
    (sout serr : String) (copy : CopyOutcome) (code : Int)
    (h0 : code ≠ 0) (h137 : ¬(code = 137 ∧ config.memoryLimitMB > 0))
    (h139 : code ≠ 139) :
    ((runTestCaseInDocker tc config
        ⟨true, true, none, .exited 137 copy, sout, serr⟩).result =
      if config.memoryLimitMB > 0 then Result.MemoryLimit
      else Result.RuntimeError) ∧
    ((runTestCaseInDocker tc config
        ⟨true, true, none, .exited 139 copy, sout, serr⟩).result =
        Result.RuntimeError ∧
      (runTestCaseInDocker tc config
        ⟨true, true, none, .exited 139 copy, sout, serr⟩).errMsg =
        "Runtime Error: Segmentation Fault (exit code " ++ toString (139 : Int)
          ++ ")" ++ stderrSuffix (trimSpace serr)) ∧
    ((runTestCaseInDocker tc config
        ⟨true, true, none, .exited code copy, sout, serr⟩).result =
        Result.RuntimeError ∧
      (runTestCaseInDocker tc config
        ⟨true, true, none, .exited code copy, sout, serr⟩).errMsg =
        "Runtime Error: Container exited with non-zero status code "
          ++ toString code ++ "." ++ stderrSuffix (trimSpace serr)) ∧
    ((runTestCaseInDocker tc config
        ⟨true, true, none, .exited 0 copy, sout, serr⟩).result =
      if normalizeOutput sout = normalizeOutput tc.expected then Result.Accepted
      else Result.WrongAnswer) ∧
    (runTestCaseInDocker tc config
        ⟨true, true, none, .waitDeadline, sout, serr⟩).result =
      Result.TimeLimit := by
  refine ⟨?_, ⟨?_, ?_⟩, ⟨?_, ?_⟩, ?_, ?_⟩
  · by_cases hm : config.memoryLimitMB > 0 <;> simp [runTestCaseInDocker, hm]
  · simp [runTestCaseInDocker]
  · simp [runTestCaseInDocker]
  · simp [runTestCaseInDocker, h0, h137, h139]
  · simp [runTestCaseInDocker, h0, h137, h139]
  · exact exit_zero_result config serr copy tc sout
  · simp [runTestCaseInDocker]

/-- Witness for C1 at exit code 5 with a 64 MB ceiling. -/
theorem C1_verdict_classification_witness :
    (runTestCaseInDocker ⟨"1 2", "3"⟩
        ⟨2000, 64, 1, DEFAULT_DOCKER_IMAGE, "/tmp/s.go", []⟩
        ⟨true, true, none, .exited 5 .finished, "", "boom"⟩).result =
      Result.RuntimeError := by
  have h := C1_verdict_classification
    ⟨2000, 64, 1, DEFAULT_DOCKER_IMAGE, "/tmp/s.go", []⟩ ⟨"1 2", "3"⟩
    "" "boom" .finished 5 (by decide) (by decide) (by decide)
  exact h.2.2.1.1

/-! The fail-fast loop of runJudge. -/

theorem runTestCases_eq_judgeLoop (config : JudgeConfig)
    (caseEnv : Nat → DockerEnv) : ∀ (tcs : List TestCase) (i : Nat),
    runTestCases config caseEnv tcs i =
      judgeLoop (caseResultsAux config caseEnv tcs i) := by
  intro tcs
  induction tcs with
  | nil => intro i; rfl
  | cons tc rest ih =>
    intro i
    simp only [runTestCases, caseResultsAux, judgeLoop, ih]

theorem caseResultsAux_length (config : JudgeConfig)
    (caseEnv : Nat → DockerEnv) : ∀ (tcs : List TestCase) (i : Nat),
    (caseResultsAux config caseEnv tcs i).length = tcs.length := by
  intro tcs
  induction tcs with
  | nil => intro i; rfl
  | cons tc rest ih => intro i; simp [caseResultsAux, ih]

theorem judgeLoop_all_accepted : ∀ (rs : List Result),
    (∀ r ∈ rs, r = .Accepted) → judgeLoop rs = (.Accepted, rs.length) := by
  intro rs
  induction rs with
  | nil => intro _; rfl
  | cons r rest ih =>
    intro h
    have hr : r = .Accepted := h r (List.mem_cons_self r rest)
    simp [judgeLoop, hr, ih (fun x hx => h x (List.mem_cons_of_mem r hx))]

theorem judgeLoop_first_fail : ∀ (rs : List Result) (i : Nat)
    (hi : i < rs.length),
    (∀ j (hj : j < i), rs.get ⟨j, Nat.lt_trans hj hi⟩ = .Accepted) →
    rs.get ⟨i, hi⟩ ≠ .Accepted →
    judgeLoop rs = (rs.get ⟨i, hi⟩, i + 1) := by
  intro rs
  induction rs with
  | nil => intro i hi; exact absurd hi (by simp)
  | cons r rest ih =>
    intro i hi hacc hne
    cases i with
    | zero =>
      have h0 : (r :: rest).get ⟨0, hi⟩ = r := rfl
      rw [h0] at hne ⊢
      simp [judgeLoop, hne]
    | succ k =>
      have hr : r = .Accepted := by
        have := hacc 0 (Nat.succ_pos k)
        simpa using this
      have hk : k < rest.length := Nat.lt_of_succ_lt_succ hi
      have hacc2 : ∀ j (hj : j < k),
          rest.get ⟨j, Nat.lt_trans hj hk⟩ = .Accepted := by
        intro j hj
        have := hacc (j + 1) (Nat.succ_lt_succ hj)
        simpa using this
      have hne2 : rest.get ⟨k, hk⟩ ≠ .Accepted := by
        simpa using hne
      have hloop := ih k hk hacc2 hne2
      simp [judgeLoop, hr, hloop]

/-- Claim C2: with working infrastructure, if the i-th test case (zero
based) is the first whose verdict is not Accepted, runJudge executes
exactly i + 1 cases and its verdict is that verdict; if every case is
Accepted (in particular with zero cases), the verdict is Accepted and
all cases are executed. -/
theorem C2_fail_fast (config : JudgeConfig) (env : JudgeEnv)
    (h1 : env.clientOk = true) (h2 : env.buildError = none)
    (h3 : (compileProgram env.compileEnv).2.2 = none)
    (h4 : env.absOk = true) :
    (∀ i (hi : i < (caseResults config env).length),
      (∀ j (hj : j < i),
        (caseResults config env).get ⟨j, Nat.lt_trans hj hi⟩ = .Accepted) →
      (caseResults config env).get ⟨i, hi⟩ ≠ .Accepted →
      (runJudge config env).result = (caseResults config env).get ⟨i, hi⟩ ∧
      (runJudge config env).casesExecuted = i + 1) ∧
    ((∀ r ∈ caseResults config env, r = .Accepted) →
      (runJudge config env).result = .Accepted ∧
      (runJudge config env).casesExecuted = config.testCases.length) := by
  have hrun : (runJudge config env).result =
        (judgeLoop (caseResults config env)).1 ∧
      (runJudge config env).casesExecuted =
        (judgeLoop (caseResults config env)).2 := by
    constructor <;>
      simp [runJudge, h1, h2, h3, h4, runTestCases_eq_judgeLoop, caseResults]
  constructor
  · intro i hi hacc hne
    have hloop := judgeLoop_first_fail (caseResults config env) i hi hacc hne
    constructor
    · rw [hrun.1, hloop]
    · rw [hrun.2, hloop]
  · intro hall
    have hloop := judgeLoop_all_accepted (caseResults config env) hall
    constructor
    · rw [hrun.1, hloop]
    · rw [hrun.2, hloop]
      exact caseResultsAux_length config env.caseEnv config.testCases 0

/-- Witness for C2: three test cases under a clean environment where
the second produces a wrong answer; exactly two cases are executed and
the verdict is WrongAnswer. -/
theorem C2_fail_fast_witness :
    (runJudge ⟨2000, 64, 1, DEFAULT_DOCKER_IMAGE, "/tmp/s.go",
        [⟨"1 2", "3"⟩, ⟨"4 5", "9"⟩, ⟨"0 0", "0"⟩]⟩
      { clientOk := true, buildError := none,
        compileEnv := ⟨"/tmp/exe", "", false, none, true⟩, absOk := true,
        caseEnv := fun i => ⟨true, true, none, .exited 0 .finished,
          if i = 0 then "3" else "8", ""⟩ }).result = .WrongAnswer ∧
    (runJudge ⟨2000, 64, 1, DEFAULT_DOCKER_IMAGE, "/tmp/s.go",
        [⟨"1 2", "3"⟩, ⟨"4 5", "9"⟩, ⟨"0 0", "0"⟩]⟩
      { clientOk := true, buildError := none,
        compileEnv := ⟨"/tmp/exe", "", false, none, true⟩, absOk := true,
        caseEnv := fun i => ⟨true, true, none, .exited 0 .finished,
          if i = 0 then "3" else "8", ""⟩ }).casesExecuted = 2 := by
  have h := (C2_fail_fast
    ⟨2000, 64, 1, DEFAULT_DOCKER_IMAGE, "/tmp/s.go",
      [⟨"1 2", "3"⟩, ⟨"4 5", "9"⟩, ⟨"0 0", "0"⟩]⟩
    { clientOk := true, buildError := none,
      compileEnv := ⟨"/tmp/exe", "", false, none, true⟩, absOk := true,
      caseEnv := fun i => ⟨true, true, none, .exited 0 .finished,
        if i = 0 then "3" else "8", ""⟩ }
    rfl rfl rfl rfl).1 1 (by decide)
    (by
      intro j hj
      have hj0 : j = 0 := by omega
      subst hj0
      rfl)
    (by decide)
  refine ⟨?_, h.2⟩
  rw [h.1]
  decide

/-- Claim C4: runJudge returns a hard error only when Docker client
creation or the absolute-path lookup fails; an image build failure
and any compilation failure are returned as CompileError with a nil
error, with the compiler log captured in the output log. -/
theorem C4_domain_failures_not_hard_errors (config : JudgeConfig)
    (env : JudgeEnv) :
    ((runJudge config env).err ≠ none →
      env.clientOk = false ∨ env.absOk = false) ∧
    (env.clientOk = true → ∀ e, env.buildError = some e →
      (runJudge config env).result = .CompileError ∧
      (runJudge config env).err = none) ∧
    (env.clientOk = true → env.buildError = none →
      (compileProgram env.compileEnv).2.2 ≠ none →
      (runJudge config env).result = .CompileError ∧
      (runJudge config env).err = none ∧
      ((compileProgram env.compileEnv).2.1 ≠ "" →
        ("--- Compilation Log ---\n" ++ (compileProgram env.compileEnv).2.1 ++
          "\n--- End Compilation Log ---") ∈ (runJudge config env).log)) := by
  refine ⟨?_, ?_, ?_⟩
  · intro herr
    cases hco : env.clientOk
    · exact Or.inl rfl
    · cases hao : env.absOk
      · exact Or.inr rfl
      · exfalso
        apply herr
        rcases hbe : env.buildError with _ | e
        · rcases hcp : (compileProgram env.compileEnv).2.2 with _ | ce
          · simp [runJudge, hco, hbe, hcp, hao]
          · simp [runJudge, hco, hbe, hcp]
        · simp [runJudge, hco, hbe]
  · intro hco e hbe
    constructor <;> simp [runJudge, hco, hbe]
  · intro hco hbe hcp
    rcases hx : (compileProgram env.compileEnv).2.2 with _ | ce
    · exact absurd hx hcp
    · refine ⟨?_, ?_, ?_⟩
      · simp [runJudge, hco, hbe, hx]
      · simp [runJudge, hco, hbe, hx]
      · intro hlog
        simp [runJudge, hco, hbe, hx, hlog]

/-- Witness for C4: a concrete compilation failure (non-zero compiler
exit) yields CompileError, a nil hard error, and the compiler log in
the output log. -/
theorem C4_domain_failures_witness :
    (runJudge ⟨2000, 64, 1, DEFAULT_DOCKER_IMAGE, "/tmp/s.go", []⟩
      { clientOk := true, buildError := none,
        compileEnv := ⟨"", "main.go:3: syntax error", false,
          some "exit status 1", true⟩,
        absOk := true,
        caseEnv := fun _ => ⟨true, true, none, .exited 0 .finished, "", ""⟩
      }).result = .CompileError ∧
    (runJudge ⟨2000, 64, 1, DEFAULT_DOCKER_IMAGE, "/tmp/s.go", []⟩
      { clientOk := true, buildError := none,
        compileEnv := ⟨"", "main.go:3: syntax error", false,
          some "exit status 1", true⟩,
        absOk := true,
        caseEnv := fun _ => ⟨true, true, none, .exited 0 .finished, "", ""⟩
      }).err = none ∧
    ("--- Compilation Log ---\n" ++
        (compileProgram ⟨"", "main.go:3: syntax error", false,
          some "exit status 1", true⟩).2.1 ++
        "\n--- End Compilation Log ---") ∈
      (runJudge ⟨2000, 64, 1, DEFAULT_DOCKER_IMAGE, "/tmp/s.go", []⟩
        { clientOk := true, buildError := none,
          compileEnv := ⟨"", "main.go:3: syntax error", false,
            some "exit status 1", true⟩,
          absOk := true,
          caseEnv := fun _ => ⟨true, true, none, .exited 0 .finished, "", ""⟩
        }).log := by
  have h := (C4_domain_failures_not_hard_errors
    ⟨2000, 64, 1, DEFAULT_DOCKER_IMAGE, "/tmp/s.go", []⟩
    { clientOk := true, buildError := none,
      compileEnv := ⟨"", "main.go:3: syntax error", false,
        some "exit status 1", true⟩,
      absOk := true,
      caseEnv := fun _ => ⟨true, true, none, .exited 0 .finished, "", ""⟩
    }).2.2 rfl rfl (by decide)
  exact ⟨h.1, h.2.1, h.2.2 (by decide)⟩

end Goera
